import Mathlib

/-!
# Verification of the WebGPU napi binding layer

Shallow embedding of the binding layer found in `src/`: the pass-recording
handle protocol (`render_pass.rs`, `compute_pass.rs`), the command-encoder
surface (`device.rs`), the string-token parsers (`parse.rs`) and the buffer
mapping state machine (`buffer.rs`).

Modelling conventions:
* Native `wgpu` objects reached through references (`&GpuRenderPipeline`,
  `&GpuBuffer`, ...) are identified by `Nat` ids; the binding only forwards
  them, never inspects them.
* Machine integers are `Nat`/`Int` with explicit reduction modulo `2 ^ 32`
  or `2 ^ 64` exactly where the Rust code performs wrapping `u32`/`u64`
  arithmetic (release-profile semantics of the shipped native module).
* `f64` scalars that the binding merely ferries into `wgpu` calls (viewport
  coordinates, blend/clear colours, clear depth) are carried on the
  uninterpreted carrier `F64 := Int`; the code does no arithmetic on them,
  only defaulting with the exact constants `0.0` and `1.0`, which the
  carrier represents exactly.  `f64` values that the code casts to `u64`
  buffer offsets before any use are modelled by their post-cast integer
  value.
* The recording session owned by the wrapped library is modelled as a spy
  object: the ordered list of commands the binding has forwarded to it,
  plus a counter of how many times the native session object has been
  finalized (dropped via `Box::from_raw`).
* Fallible entry points (`napi::Result`) become `Except String`.
-/

namespace WebGpuNapi

/-- Reduction modulo `2 ^ 32`, the wrapping of Rust `u32` arithmetic. -/
def u32Mod (n : Nat) : Nat := n % 2 ^ 32

/-- Reduction modulo `2 ^ 64`, the wrapping of Rust `u64` arithmetic. -/
def u64Mod (n : Nat) : Nat := n % 2 ^ 64

/-- Wrapping `u64` subtraction `a - b` (both arguments assumed `< 2 ^ 64`). -/
def u64Sub (a b : Nat) : Nat := u64Mod (a + 2 ^ 64 - b % 2 ^ 64)

/-- Uninterpreted carrier for the `f64` scalars the binding ferries into
`wgpu` without computing on them.  The exact constants `0.0` and `1.0`
that appear as defaults in the code are represented by `0` and `1`. -/
abbrev F64 := Int

/-! ## `parse.rs`: string-token translation -/

/-- Texture formats from the vocabulary of `parse.rs`. -/
inductive TextureFormat
  | rgba8unorm
  | bgra8unorm
  | rgba16float
  | rgba32float
  | depth24plus
  | depth32float
  deriving Repr, DecidableEq

/-- `parse_texture_format` (`parse.rs:7-17`): unrecognized tokens fall back
to `Rgba8Unorm`. -/
def parse_texture_format (format : String) : TextureFormat :=
  match format with
  | "rgba8unorm" => .rgba8unorm
  | "bgra8unorm" => .bgra8unorm
  | "rgba16float" => .rgba16float
  | "rgba32float" => .rgba32float
  | "depth24plus" => .depth24plus
  | "depth32float" => .depth32float
  | _ => .rgba8unorm

/-- The known vocabulary of texture-format tokens (the non-wildcard arms of
`parse_texture_format`). -/
def knownTextureFormats : List String :=
  ["rgba8unorm", "bgra8unorm", "rgba16float", "rgba32float",
   "depth24plus", "depth32float"]

/-! ## `texture.rs` / `device.rs`: `createTexture` -/

/-- Texture dimension tokens after translation (`device.rs:247-251`). -/
inductive TextureDimension
  | d1
  | d2
  | d3
  deriving Repr, DecidableEq

/-- `TextureDescriptor` (`texture.rs:5-16`). -/
structure TextureDescriptor where
  label : Option String
  width : Nat
  height : Nat
  depth : Option Nat
  format : String
  usage : Nat
  dimension : Option String
  mipLevelCount : Option Nat
  sampleCount : Option Nat
  deriving Repr, DecidableEq

/-- The native texture produced by `createTexture`: the descriptor handed to
`wgpu::Device::create_texture` (`device.rs:253-266`). -/
structure GpuTexture where
  format : TextureFormat
  dimension : TextureDimension
  width : Nat
  height : Nat
  depthOrArrayLayers : Nat
  mipLevelCount : Nat
  sampleCount : Nat
  usage : Nat
  deriving Repr, DecidableEq

/-- Mask of the `wgpu::TextureUsages` bits known to
`TextureUsages::from_bits_truncate` (COPY_SRC | COPY_DST | TEXTURE_BINDING
| STORAGE_BINDING | RENDER_ATTACHMENT). -/
def textureUsagesMask : Nat := 31

/-- `GpuDevice::create_texture` (`device.rs:244-269`): total, never fails;
the format string goes through `parse_texture_format`. -/
def create_texture (descriptor : TextureDescriptor) : GpuTexture :=
  let format := parse_texture_format descriptor.format
  let dimension : TextureDimension :=
    match descriptor.dimension with
    | some "1d" => .d1
    | some "3d" => .d3
    | _ => .d2
  { format := format
    dimension := dimension
    width := descriptor.width
    height := descriptor.height
    depthOrArrayLayers := descriptor.depth.getD 1
    mipLevelCount := descriptor.mipLevelCount.getD 1
    sampleCount := descriptor.sampleCount.getD 1
    usage := descriptor.usage &&& textureUsagesMask }

/-! ## Pass-recording sessions (`render_pass.rs`, `compute_pass.rs`)

The handle stores `pass : Option<*mut ()>`; `None` is the ENDED state.  The
pointed-to `wgpu` session is modelled as the list of commands forwarded to
it, and the native finalization (`Box::from_raw` reconstructing and
dropping the session) as a counter on the handle's model. -/

/-- Index-format tokens after translation. -/
inductive IndexFormat
  | uint16
  | uint32
  deriving Repr, DecidableEq

/-- The buffer slice handed to `wgpu` (`buffer.buffer.slice(..)` variants in
`render_pass.rs:60-66,92-98`): with both offset and size the slice is
`off..off+sz` (wrapping `u64` addition), with only an offset it is `off..`,
and otherwise — including a size without an offset — the full slice. -/
inductive BufferRange
  | fromTo (startOff endOff : Nat)
  | fromOffset (startOff : Nat)
  | full
  deriving Repr, DecidableEq

/-- The slice selection of `set_vertex_buffer`/`set_index_buffer`. -/
def sliceRange (offset size : Option Nat) : BufferRange :=
  match offset, size with
  | some off, some sz => .fromTo off (u64Mod (off + sz))
  | some off, none => .fromOffset off
  | none, _ => .full

/-- RGBA colour of `f64` components (`wgpu::Color`). -/
structure Color where
  r : F64
  g : F64
  b : F64
  a : F64
  deriving Repr, DecidableEq

/-- Commands a render-pass session receives from the binding, in the form
the binding forwards them (`render_pass.rs`).  Draw ranges are the
half-open `u32` ranges handed to `wgpu` as `(start, end)` pairs. -/
inductive RenderCmd
  | setPipeline (pipeline : Nat)
  | setBindGroup (index : Nat) (bindGroup : Nat) (dynamicOffsets : List Nat)
  | setVertexBuffer (slot : Nat) (buffer : Nat) (range : BufferRange)
  | setIndexBuffer (buffer : Nat) (range : BufferRange) (format : IndexFormat)
  | draw (vertices : Nat × Nat) (instances : Nat × Nat)
  | drawIndexed (indices : Nat × Nat) (baseVertex : Int) (instances : Nat × Nat)
  | drawIndirect (buffer : Nat) (offset : Nat)
  | drawIndexedIndirect (buffer : Nat) (offset : Nat)
  | executeBundles (bundles : List Nat)
  | setViewport (x y width height minDepth maxDepth : F64)
  | setScissorRect (x y width height : Nat)
  | setBlendConstant (color : Color)
  | setStencilReference (reference : Nat)
  | pushDebugGroup (label : String)
  | popDebugGroup
  | insertDebugMarker (label : String)
  deriving Repr, DecidableEq

/-- The `wgpu::RenderPass` session object, as a spy recording the commands
forwarded to it in order. -/
structure WgpuRenderPass where
  cmds : List RenderCmd
  deriving Repr, DecidableEq

/-- `GpuRenderPassEncoder` (`render_pass.rs:7-10`): `pass = none` is the
ENDED state.  `finalized` counts how many times the native session object
has been reconstructed and dropped (`Box::from_raw` in `end`/`Drop`) — the
one-shot finalize flag of a mocked session. -/
structure GpuRenderPassEncoder where
  pass : Option WgpuRenderPass
  finalized : Nat
  deriving Repr, DecidableEq

/-- The recording operations of `GpuRenderPassEncoder`, with the arguments
of the napi entry points (optional arguments still optional; `f64` buffer
offsets by their post-cast `u64` value). -/
inductive RenderPassOp
  | setPipeline (pipeline : Nat)
  | setBindGroup (index : Nat) (bindGroup : Nat) (dynamicOffsets : Option (List Nat))
  | setVertexBuffer (slot : Nat) (buffer : Nat) (offset size : Option Nat)
  | setIndexBuffer (buffer : Nat) (indexFormat : String) (offset size : Option Nat)
  | draw (vertexCount : Nat) (instanceCount firstVertex firstInstance : Option Nat)
  | drawIndexed (indexCount : Nat) (instanceCount firstIndex : Option Nat)
      (baseVertex : Option Int) (firstInstance : Option Nat)
  | drawIndirect (indirectBuffer : Nat) (indirectOffset : Nat)
  | drawIndexedIndirect (indirectBuffer : Nat) (indirectOffset : Nat)
  | executeBundles (bundles : List Nat)
  | setViewport (x y width height minDepth maxDepth : F64)
  | setScissorRect (x y width height : Nat)
  | setBlendConstant (color : List F64)
  | setStencilReference (reference : Nat)
  | pushDebugGroup (label : String)
  | popDebugGroup
  | insertDebugMarker (label : String)
  deriving Repr, DecidableEq

/-- Error message of every recording operation called after `end`
(`render_pass.rs`). -/
def renderPassEnded : String := "Render pass already ended"

/-- What a successful recording operation forwards to the open session, or
`none` when the operation fails even on an OPEN handle: `setIndexBuffer`
with a token other than `"uint16"`/`"uint32"` (`render_pass.rs:87-91`) and
`setBlendConstant` with fewer than 4 components (`render_pass.rs:246-248`).
The translations mirror the argument defaulting of each method body. -/
def renderOpCmd : RenderPassOp → Option RenderCmd
  | .setPipeline p => some (.setPipeline p)
  | .setBindGroup i g offs => some (.setBindGroup i g (offs.getD []))
  | .setVertexBuffer slot b off sz => some (.setVertexBuffer slot b (sliceRange off sz))
  | .setIndexBuffer b fmt off sz =>
      match fmt with
      | "uint16" => some (.setIndexBuffer b (sliceRange off sz) .uint16)
      | "uint32" => some (.setIndexBuffer b (sliceRange off sz) .uint32)
      | _ => none
  | .draw vc ic fv fi =>
      some (.draw (fv.getD 0, u32Mod (fv.getD 0 + vc))
                  (fi.getD 0, u32Mod (fi.getD 0 + ic.getD 1)))
  | .drawIndexed nc ic fIdx bv fi =>
      some (.drawIndexed (fIdx.getD 0, u32Mod (fIdx.getD 0 + nc)) (bv.getD 0)
                         (fi.getD 0, u32Mod (fi.getD 0 + ic.getD 1)))
  | .drawIndirect b off => some (.drawIndirect b off)
  | .drawIndexedIndirect b off => some (.drawIndexedIndirect b off)
  | .executeBundles bs => some (.executeBundles bs)
  | .setViewport x y w h mn mx => some (.setViewport x y w h mn mx)
  | .setScissorRect x y w h => some (.setScissorRect x y w h)
  | .setBlendConstant color =>
      match color with
      | r :: g :: b :: a :: _ => some (.setBlendConstant ⟨r, g, b, a⟩)
      | _ => none
  | .setStencilReference r => some (.setStencilReference r)
  | .pushDebugGroup l => some (.pushDebugGroup l)
  | .popDebugGroup => some (.popDebugGroup)
  | .insertDebugMarker l => some (.insertDebugMarker l)

/-- Error message of a failing recording operation on an OPEN render pass
handle (`renderOpCmd op = none` cases). -/
def renderOpOpenError : RenderPassOp → String
  | .setIndexBuffer _ fmt _ _ => "Invalid index format: " ++ fmt
  | _ => "Blend constant must have 4 components (RGBA)"

/-- One recording operation on a `GpuRenderPassEncoder`: every method first
checks `if let Some(pass_ptr) = self.pass`, returning the `SessionEnded`
error otherwise; on an OPEN handle it forwards one command to the session
(or reports the operation's own validation error without recording). -/
def GpuRenderPassEncoder.step (e : GpuRenderPassEncoder) (op : RenderPassOp) :
    Except String Unit × GpuRenderPassEncoder :=
  match e.pass with
  | none => (.error renderPassEnded, e)
  | some s =>
      match renderOpCmd op with
      | some c => (.ok (), { e with pass := some ⟨s.cmds ++ [c]⟩ })
      | none => (.error (renderOpOpenError op), e)

/-- `GpuRenderPassEncoder::end` (`render_pass.rs:280-289`): takes the
pointer out of the handle (leaving `None`) and finalizes the native session
exactly when one was present; a second call finds `None` and does
nothing. -/
def GpuRenderPassEncoder.endPass (e : GpuRenderPassEncoder) : GpuRenderPassEncoder :=
  match e.pass with
  | some _ => { pass := none, finalized := e.finalized + 1 }
  | none => e

/-- `impl Drop for GpuRenderPassEncoder` (`render_pass.rs:335-343`): the
automatic cleanup path, byte-for-byte the same take-and-finalize logic as
`end`. -/
def GpuRenderPassEncoder.dropHandle (e : GpuRenderPassEncoder) : GpuRenderPassEncoder :=
  match e.pass with
  | some _ => { pass := none, finalized := e.finalized + 1 }
  | none => e

/-- Run a list of recording operations in order, discarding the
per-operation results (state evolution only). -/
def GpuRenderPassEncoder.run (e : GpuRenderPassEncoder) :
    List RenderPassOp → GpuRenderPassEncoder
  | [] => e
  | op :: ops => ((e.step op).2).run ops

/-! ### Compute pass (`compute_pass.rs`) -/

/-- Commands a compute-pass session receives from the binding. -/
inductive ComputeCmd
  | setPipeline (pipeline : Nat)
  | setBindGroup (index : Nat) (bindGroup : Nat) (dynamicOffsets : List Nat)
  | dispatchWorkgroups (x y z : Nat)
  | dispatchWorkgroupsIndirect (buffer : Nat) (offset : Nat)
  | pushDebugGroup (label : String)
  | popDebugGroup
  | insertDebugMarker (label : String)
  deriving Repr, DecidableEq

/-- The `wgpu::ComputePass` session object, as a spy. -/
structure WgpuComputePass where
  cmds : List ComputeCmd
  deriving Repr, DecidableEq

/-- `GpuComputePassEncoder` (`compute_pass.rs:7-10`), modelled like the
render-pass handle. -/
structure GpuComputePassEncoder where
  pass : Option WgpuComputePass
  finalized : Nat
  deriving Repr, DecidableEq

/-- The recording operations of `GpuComputePassEncoder`. -/
inductive ComputePassOp
  | setPipeline (pipeline : Nat)
  | setBindGroup (index : Nat) (bindGroup : Nat) (dynamicOffsets : Option (List Nat))
  | dispatchWorkgroups (x : Nat) (y z : Option Nat)
  | dispatchWorkgroupsIndirect (indirectBuffer : Nat) (indirectOffset : Nat)
  | pushDebugGroup (label : String)
  | popDebugGroup
  | insertDebugMarker (label : String)
  deriving Repr, DecidableEq

/-- Error message of every recording operation called after `end`
(`compute_pass.rs`). -/
def computePassEnded : String := "Compute pass already ended"

/-- The command a compute recording operation forwards to an open session
(every compute operation succeeds on an OPEN handle). -/
def computeOpCmd : ComputePassOp → ComputeCmd
  | .setPipeline p => .setPipeline p
  | .setBindGroup i g offs => .setBindGroup i g (offs.getD [])
  | .dispatchWorkgroups x y z => .dispatchWorkgroups x (y.getD 1) (z.getD 1)
  | .dispatchWorkgroupsIndirect b off => .dispatchWorkgroupsIndirect b off
  | .pushDebugGroup l => .pushDebugGroup l
  | .popDebugGroup => .popDebugGroup
  | .insertDebugMarker l => .insertDebugMarker l

/-- One recording operation on a `GpuComputePassEncoder`
(`compute_pass.rs:15-142`). -/
def GpuComputePassEncoder.step (e : GpuComputePassEncoder) (op : ComputePassOp) :
    Except String Unit × GpuComputePassEncoder :=
  match e.pass with
  | none => (.error computePassEnded, e)
  | some s => (.ok (), { e with pass := some ⟨s.cmds ++ [computeOpCmd op]⟩ })

/-- `GpuComputePassEncoder::end` (`compute_pass.rs:91-100`). -/
def GpuComputePassEncoder.endPass (e : GpuComputePassEncoder) : GpuComputePassEncoder :=
  match e.pass with
  | some _ => { pass := none, finalized := e.finalized + 1 }
  | none => e

/-- `impl Drop for GpuComputePassEncoder` (`compute_pass.rs:146-154`). -/
def GpuComputePassEncoder.dropHandle (e : GpuComputePassEncoder) : GpuComputePassEncoder :=
  match e.pass with
  | some _ => { pass := none, finalized := e.finalized + 1 }
  | none => e

/-! ## Render bundles (`device.rs:652-712`) -/

/-- The finished render bundle: the formats it was encoded against and the
commands recorded into the bundle encoder, in order. -/
structure GpuRenderBundle where
  label : String
  colorFormats : List TextureFormat
  cmds : List RenderCmd
  deriving Repr, DecidableEq

/-- Index-format defaulting of `create_render_bundle_indexed`
(`device.rs:696-700`): an unrecognized token silently becomes `Uint16`. -/
def bundleIndexFormat (s : String) : IndexFormat :=
  match s with
  | "uint16" => .uint16
  | "uint32" => .uint32
  | _ => .uint16

/-- `GpuDevice::create_render_bundle_indexed` (`device.rs:654-712`): records
pipeline, bind groups, vertex buffers, the index buffer (full slice, with
the permissive format defaulting) and one indexed draw `0..index_count`,
`base_vertex 0`, instances `0..1`; always returns `Ok`. -/
def create_render_bundle_indexed (label : String) (pipeline : Nat)
    (vertexBuffers : List Nat) (indexBuffer : Nat) (indexFormat : String)
    (indexCount : Nat) (bindGroups : Option (List Nat))
    (colorFormats : List String) : Except String GpuRenderBundle :=
  let formats := colorFormats.map parse_texture_format
  let cmds : List RenderCmd :=
    RenderCmd.setPipeline pipeline ::
      ((bindGroups.getD []).enum.map fun p => RenderCmd.setBindGroup p.1 p.2 []) ++
      (vertexBuffers.enum.map fun p => RenderCmd.setVertexBuffer p.1 p.2 .full) ++
      [RenderCmd.setIndexBuffer indexBuffer .full (bundleIndexFormat indexFormat),
       RenderCmd.drawIndexed (0, indexCount) 0 (0, 1)]
  .ok { label := label, colorFormats := formats, cmds := cmds }

/-! ## Command encoder (`device.rs:727-1444`)

The wrapped `wgpu::CommandEncoder` is modelled as the ordered list of
events the binding issues on it; beginning and dropping an inline pass are
explicit events so that the one-open-session-at-a-time discipline is
visible in the trace. -/

/-- A colour attachment as built by the inline render-pass helpers
(`device.rs:820-858`): clear colour from `clear_colors[i]` when present
with at least 4 components, else `wgpu::Color::BLACK`; resolve target
`resolve_targets[i]` when in range. -/
structure ColorAttachment where
  view : Nat
  resolveTarget : Option Nat
  clearColor : Color
  deriving Repr, DecidableEq

/-- `wgpu::Color::BLACK` (r = 0, g = 0, b = 0, a = 1). -/
def blackColor : Color := ⟨0, 0, 0, 1⟩

/-- The attachment-building loop shared by the inline render-pass helpers
(`device.rs:820-858` and its copies; `render_pass_bundles` passes no
resolve targets). -/
def buildColorAttachments (views : List Nat)
    (clearColors : Option (List (List F64)))
    (resolveTargets : Option (List Nat)) : List ColorAttachment :=
  views.enum.map fun p =>
    { view := p.2
      resolveTarget := resolveTargets.bind fun ts => ts.get? p.1
      clearColor :=
        match clearColors with
        | some colors =>
            match colors.get? p.1 with
            | some (r :: g :: b :: a :: _) => ⟨r, g, b, a⟩
            | _ => blackColor
        | none => blackColor }

/-- The depth/stencil attachment built by the inline render-pass helpers
(`device.rs:861-870`): depth cleared to `clear_depth.unwrap_or(1.0)`,
no stencil ops. -/
structure DepthStencilAttachment where
  view : Nat
  clearDepth : F64
  deriving Repr, DecidableEq

/-- Events the binding issues on the wrapped command encoder. -/
inductive EncEvent
  | beginComputePass
  | beginRenderPass (colorAttachments : List ColorAttachment)
      (depthStencil : Option DepthStencilAttachment)
  | computeCmd (c : ComputeCmd)
  | renderCmd (c : RenderCmd)
  | endPass
  | copyBufferToBuffer (source sourceOffset destination destinationOffset size : Nat)
  | copyBufferToTexture (source sourceOffset bytesPerRow : Nat)
      (rowsPerImage : Option Nat) (destination mipLevel originX originY originZ : Nat)
      (width height depthOrArrayLayers : Nat)
  | copyTextureToBuffer (source mipLevel originX originY originZ : Nat)
      (destination destinationOffset bytesPerRow : Nat) (rowsPerImage : Option Nat)
      (width height depthOrArrayLayers : Nat)
  | writeTimestamp (querySet queryIndex : Nat)
  | resolveQuerySet (querySet : Nat) (queryRange : Nat × Nat)
      (destination destinationOffset : Nat)
  deriving Repr, DecidableEq

/-- Reinterpretation of an `i64` napi argument as `u64` (`x as u64`). -/
def i64ToU64 (x : Int) : Nat := (x % 2 ^ 64).toNat

/-- `GpuCommandEncoder` (`device.rs:727-729`): `None` once `finish` has
consumed the wrapped encoder. -/
structure GpuCommandEncoder where
  encoder : Option (List EncEvent)
  deriving Repr, DecidableEq

/-- `GpuCommandBuffer` (`device.rs:1447-1449`). -/
structure GpuCommandBuffer where
  buffer : Option (List EncEvent)
  deriving Repr, DecidableEq

/-- `GpuDevice::create_command_encoder` (`device.rs:83-91`). -/
def newCommandEncoder : GpuCommandEncoder := ⟨some []⟩

/-- Error message of every fallible encoder method called after `finish`
(`device.rs`). -/
def encoderFinished : String := "Command encoder already finished"

/-- An inline pass session on the encoder: begin, forward the inner
commands, drop the pass before returning (`drop(pass)` in every helper). -/
def computeSession (inner : List ComputeCmd) : List EncEvent :=
  .beginComputePass :: inner.map EncEvent.computeCmd ++ [.endPass]

/-- An inline render-pass session on the encoder. -/
def renderSession (att : List ColorAttachment) (ds : Option DepthStencilAttachment)
    (inner : List RenderCmd) : List EncEvent :=
  .beginRenderPass att ds :: inner.map EncEvent.renderCmd ++ [.endPass]

/-- Index-format defaulting of `render_pass_indexed` (`device.rs:995-998`),
matching `"uint32"` first. -/
def renderPassIndexedFormat (s : String) : IndexFormat :=
  match s with
  | "uint32" => .uint32
  | _ => .uint16

/-- The public methods of `GpuCommandEncoder` with their napi arguments
(resources as ids, `i64` offsets as `Int`, optional arguments still
optional). -/
inductive EncoderApiCall
  | computePass (pipeline : Nat) (bindGroups : List Nat) (workgroupsX : Nat)
      (workgroupsY workgroupsZ : Option Nat)
  | computePassIndirect (pipeline : Nat) (bindGroups : List Nat)
      (indirectBuffer : Nat) (indirectOffset : Nat)
  | renderPass (pipeline : Nat) (vertexBuffers : List Nat) (vertexCount : Nat)
      (colorAttachments : List Nat) (clearColors : Option (List (List F64)))
      (bindGroups : Option (List Nat)) (depthStencilAttachment : Option Nat)
      (clearDepth : Option F64) (resolveTargets : Option (List Nat))
  | renderPassIndexed (pipeline : Nat) (vertexBuffers : List Nat)
      (indexBuffer : Nat) (indexFormat : String) (indexCount : Nat)
      (colorAttachments : List Nat) (clearColors : Option (List (List F64)))
      (bindGroups : Option (List Nat)) (depthStencilAttachment : Option Nat)
      (clearDepth : Option F64) (resolveTargets : Option (List Nat))
  | renderPassIndirect (pipeline : Nat) (vertexBuffers : List Nat)
      (indirectBuffer : Nat) (indirectOffset : Nat)
      (colorAttachments : List Nat) (clearColors : Option (List (List F64)))
      (bindGroups : Option (List Nat)) (depthStencilAttachment : Option Nat)
      (clearDepth : Option F64) (resolveTargets : Option (List Nat))
  | renderPassIndexedIndirect (pipeline : Nat) (vertexBuffers : List Nat)
      (indexBuffer : Nat) (indexFormat : String) (indirectBuffer : Nat)
      (indirectOffset : Nat) (colorAttachments : List Nat)
      (clearColors : Option (List (List F64))) (bindGroups : Option (List Nat))
      (depthStencilAttachment : Option Nat) (clearDepth : Option F64)
      (resolveTargets : Option (List Nat))
  | writeTimestamp (querySet queryIndex : Nat)
  | resolveQuerySet (querySet firstQuery queryCount destination destinationOffset : Nat)
  | renderPassBundles (bundles : List Nat) (colorAttachments : List Nat)
      (clearColors : Option (List (List F64)))
  | copyBufferToBuffer (source : Nat) (sourceOffset : Int) (destination : Nat)
      (destinationOffset : Int) (size : Int)
  | copyBufferToTexture (source : Nat) (sourceOffset : Int) (bytesPerRow : Nat)
      (rowsPerImage : Option Nat) (destination : Nat)
      (mipLevel originX originY originZ : Option Nat) (width height : Nat)
      (depth : Option Nat)
  | copyTextureToBuffer (source : Nat) (mipLevel originX originY originZ : Option Nat)
      (destination : Nat) (destinationOffset : Int) (bytesPerRow : Nat)
      (rowsPerImage : Option Nat) (width height : Nat) (depth : Option Nat)
  | finish
  deriving Repr, DecidableEq

/-- Result of an encoder method: the fallible methods return
`Result<()>`; `finish` returns a `GpuCommandBuffer` (never an error). -/
inductive EncOpResult
  | unitRes (r : Except String Unit)
  | bufRes (b : GpuCommandBuffer)
  deriving Repr

/-- The trace of events an encoder method appends on a live encoder,
translated method-by-method from `device.rs:732-1436`. -/
def encCallTrace : EncoderApiCall → List EncEvent
  | .computePass p bgs wx wy wz =>
      computeSession
        (ComputeCmd.setPipeline p ::
          (bgs.enum.map fun q => ComputeCmd.setBindGroup q.1 q.2 []) ++
          [ComputeCmd.dispatchWorkgroups wx (wy.getD 1) (wz.getD 1)])
  | .computePassIndirect p bgs ib off =>
      computeSession
        (ComputeCmd.setPipeline p ::
          (bgs.enum.map fun q => ComputeCmd.setBindGroup q.1 q.2 []) ++
          [ComputeCmd.dispatchWorkgroupsIndirect ib off])
  | .renderPass p vbs vc atts clears bgs ds clearDepth resolves =>
      renderSession (buildColorAttachments atts clears resolves)
        (ds.map fun v => ⟨v, clearDepth.getD 1⟩)
        (RenderCmd.setPipeline p ::
          ((bgs.getD []).enum.map fun q => RenderCmd.setBindGroup q.1 q.2 []) ++
          (vbs.enum.map fun q => RenderCmd.setVertexBuffer q.1 q.2 .full) ++
          [RenderCmd.draw (0, vc) (0, 1)])
  | .renderPassIndexed p vbs ib fmt ic atts clears bgs ds clearDepth resolves =>
      renderSession (buildColorAttachments atts clears resolves)
        (ds.map fun v => ⟨v, clearDepth.getD 1⟩)
        (RenderCmd.setPipeline p ::
          ((bgs.getD []).enum.map fun q => RenderCmd.setBindGroup q.1 q.2 []) ++
          (vbs.enum.map fun q => RenderCmd.setVertexBuffer q.1 q.2 .full) ++
          [RenderCmd.setIndexBuffer ib .full (renderPassIndexedFormat fmt),
           RenderCmd.drawIndexed (0, ic) 0 (0, 1)])
  | .renderPassIndirect p vbs ib off atts clears bgs ds clearDepth resolves =>
      renderSession (buildColorAttachments atts clears resolves)
        (ds.map fun v => ⟨v, clearDepth.getD 1⟩)
        (RenderCmd.setPipeline p ::
          ((bgs.getD []).enum.map fun q => RenderCmd.setBindGroup q.1 q.2 []) ++
          (vbs.enum.map fun q => RenderCmd.setVertexBuffer q.1 q.2 .full) ++
          [RenderCmd.drawIndirect ib off])
  | .renderPassIndexedIndirect p vbs ib fmt idb idoff atts clears bgs ds clearDepth resolves =>
      renderSession (buildColorAttachments atts clears resolves)
        (ds.map fun v => ⟨v, clearDepth.getD 1⟩)
        (RenderCmd.setPipeline p ::
          ((bgs.getD []).enum.map fun q => RenderCmd.setBindGroup q.1 q.2 []) ++
          (vbs.enum.map fun q => RenderCmd.setVertexBuffer q.1 q.2 .full) ++
          [RenderCmd.setIndexBuffer ib .full (bundleIndexFormat fmt),
           RenderCmd.drawIndexedIndirect idb idoff])
  | .writeTimestamp qs i => [.writeTimestamp qs i]
  | .resolveQuerySet qs first count dst dstOff =>
      [.resolveQuerySet qs (first, u32Mod (first + count)) dst dstOff]
  | .renderPassBundles bundles atts clears =>
      renderSession (buildColorAttachments atts clears none) none
        [RenderCmd.executeBundles bundles]
  | .copyBufferToBuffer src so dst dof sz =>
      [.copyBufferToBuffer src (i64ToU64 so) dst (i64ToU64 dof) (i64ToU64 sz)]
  | .copyBufferToTexture src so bpr rpi dst mip ox oy oz w h d =>
      [.copyBufferToTexture src (i64ToU64 so) bpr rpi dst (mip.getD 0)
        (ox.getD 0) (oy.getD 0) (oz.getD 0) w h (d.getD 1)]
  | .copyTextureToBuffer src mip ox oy oz dst dof bpr rpi w h d =>
      [.copyTextureToBuffer src (mip.getD 0) (ox.getD 0) (oy.getD 0) (oz.getD 0)
        dst (i64ToU64 dof) bpr rpi w h (d.getD 1)]
  | .finish => []

/-- Apply one encoder method (`device.rs:732-1443`): every fallible method
checks `if let Some(ref mut enc) = self.encoder`, appends its trace and
returns `Ok(())`, or reports `encoderFinished`; `finish` takes the wrapped
encoder out unconditionally and wraps whatever was there (possibly nothing)
in a `GpuCommandBuffer`. -/
def encApply (c : EncoderApiCall) (e : GpuCommandEncoder) :
    EncOpResult × GpuCommandEncoder :=
  match c with
  | .finish => (.bufRes ⟨e.encoder⟩, ⟨none⟩)
  | c =>
      match e.encoder with
      | none => (.unitRes (.error encoderFinished), e)
      | some evts => (.unitRes (.ok ()), ⟨some (evts ++ encCallTrace c)⟩)

/-- Run a sequence of encoder methods from a given encoder state. -/
def runEnc : List EncoderApiCall → GpuCommandEncoder → GpuCommandEncoder
  | [], e => e
  | c :: cs, e => runEnc cs (encApply c e).2

/-- Walk an event trace tracking how many pass sessions are open on the
recording buffer: `some o` is the open-session count after the trace, and
the walk fails (`none`) as soon as a second session would be opened on top
of an open one, or a session closed with none open. -/
def openRun : List EncEvent → Nat → Option Nat
  | [], o => some o
  | ev :: rest, o =>
      match ev with
      | .beginComputePass => if o = 0 then openRun rest 1 else none
      | .beginRenderPass _ _ => if o = 0 then openRun rest 1 else none
      | .endPass => if o = 1 then openRun rest 0 else none
      | _ => openRun rest o

/-- The at-most-one-open-session invariant of a command encoder: a live
encoder's event trace opens at most one session at a time and has every
session closed. -/
def encoderInv (e : GpuCommandEncoder) : Prop :=
  match e.encoder with
  | some evts => openRun evts 0 = some 0
  | none => True

/-! ## Recording-buffer state semantics (for the cumulativity claim)

The binding layer only forwards commands; what a `setPipeline` or a
binding means for later draws is the wrapped library's recording-buffer
state machine, which is not part of this repository.  It is modelled here
from the spec's description. -/

/-- Modelled from the spec: the mutable recording-buffer state the spec
describes for a render session ("pipeline binding, vertex/index buffer
bindings" — cumulative, later `setPipeline` overrides earlier, bindings
not reset between draw calls).  Lookup lists hold the latest binding
first. -/
structure RenderBindingState where
  pipeline : Option Nat
  bindGroups : List (Nat × (Nat × List Nat))
  vertexBuffers : List (Nat × (Nat × BufferRange))
  indexBuffer : Option (Nat × BufferRange × IndexFormat)
  deriving Repr, DecidableEq

/-- Modelled from the spec: how one recorded command updates the
recording-buffer state — state-setting commands override or accumulate,
draw/dispatch/debug commands consume the state without resetting it. -/
def bindingUpd (st : RenderBindingState) : RenderCmd → RenderBindingState
  | .setPipeline p => { st with pipeline := some p }
  | .setBindGroup i g offs => { st with bindGroups := (i, (g, offs)) :: st.bindGroups }
  | .setVertexBuffer s b r => { st with vertexBuffers := (s, (b, r)) :: st.vertexBuffers }
  | .setIndexBuffer b r f => { st with indexBuffer := some (b, r, f) }
  | _ => st

/-- Modelled from the spec: the recording-buffer state after a command
sequence, starting from the empty state a fresh session begins with. -/
def bindingState (cs : List RenderCmd) : RenderBindingState :=
  cs.foldl bindingUpd ⟨none, [], [], none⟩

/-- Modelled from the spec: the recording-buffer state of a compute
session — the pipeline binding and the bind-group bindings, cumulative
across the session.  Lookup list holds the latest binding first. -/
structure ComputeBindingState where
  pipeline : Option Nat
  bindGroups : List (Nat × (Nat × List Nat))
  deriving Repr, DecidableEq

/-- Modelled from the spec: how one recorded compute command updates the
recording-buffer state — `setPipeline` overrides, `setBindGroup`
accumulates, dispatch and debug commands consume the state without
resetting it. -/
def computeBindingUpd (st : ComputeBindingState) : ComputeCmd → ComputeBindingState
  | .setPipeline p => { st with pipeline := some p }
  | .setBindGroup i g offs => { st with bindGroups := (i, (g, offs)) :: st.bindGroups }
  | _ => st

/-- Modelled from the spec: the compute recording-buffer state after a
command sequence, from the empty state a fresh session begins with. -/
def computeBindingState (cs : List ComputeCmd) : ComputeBindingState :=
  cs.foldl computeBindingUpd ⟨none, []⟩

/-- Run a list of compute recording operations in order, discarding the
per-operation results (state evolution only). -/
def GpuComputePassEncoder.run (e : GpuComputePassEncoder) :
    List ComputePassOp → GpuComputePassEncoder
  | [] => e
  | op :: ops => ((e.step op).2).run ops

/-! ## Buffers (`buffer.rs`) -/

/-- Native calls `unmap` issues on the wrapped objects, in order (a spy of
the `wgpu` side). -/
inductive BufNative
  | unmapNative
  | queueWriteBuffer (offset : Nat) (data : List Nat)
  | queueSubmit
  | devicePoll
  deriving Repr, DecidableEq

/-- `GpuBuffer` (`buffer.rs:10-26`): the binding-layer fields (`map_state`
as the literal string the code stores, pending writes, the stored mapped
copy, the active `getMappedRange` ranges) plus the native buffer's size,
usage bits, mapped memory bytes, and the spy log of native calls.  The
mutex around each field is dropped: the spec's concurrency model is
single-threaded and the lock acquisitions cannot fail there. -/
structure GpuBuffer where
  size : Nat
  usage : Nat
  contents : List Nat
  pendingWrites : List (Nat × List Nat)
  mappedData : Option (List Nat)
  mapState : String
  activeRanges : List (Nat × Nat)
  nativeLog : List BufNative
  deriving Repr, DecidableEq

/-- `wgpu::BufferUsages::COPY_DST` bit. -/
def copyDstBit : Nat := 8

/-- The overlap scan of `get_mapped_range` (`buffer.rs:184-195`): the first
active range with `range_start < active_end && range_end > active_start`
(ends computed with wrapping `u64` addition, as in the code). -/
def findFirstOverlap (rangeStart rangeEnd : Nat) : List (Nat × Nat) → Option (Nat × Nat)
  | [] => none
  | r :: rest =>
      if rangeStart < u64Mod (r.1 + r.2) ∧ r.1 < rangeEnd
      then some r
      else findFirstOverlap rangeStart rangeEnd rest

/-- The size a `get_mapped_range` request works with
(`buffer.rs:153`): the explicit size, or `buffer_size - offset` computed
in wrapping `u64` arithmetic (the release-built native module wraps on
underflow). -/
def codeSize (b : GpuBuffer) (offset size : Option Nat) : Nat :=
  match size with
  | some s => s
  | none => u64Sub b.size (offset.getD 0)

/-- `GpuBuffer::get_mapped_range` (`buffer.rs:139-212`), check for check in
source order; the default size `buffer_size - offset` and the bound
`offset + size` use wrapping `u64` arithmetic as the release-built native
module does. -/
def GpuBuffer.get_mapped_range (b : GpuBuffer) (offset size : Option Nat) :
    Except String (List Nat) × GpuBuffer :=
  if b.mapState ≠ "mapped" then
    (.error ("Buffer must be mapped before calling getMappedRange(). Current state: "
      ++ b.mapState), b)
  else
    let bufferSize := b.size
    let off := offset.getD 0
    let sz := codeSize b offset size
    if off % 8 ≠ 0 then
      (.error ("Offset (" ++ toString off ++ ") must be a multiple of 8"), b)
    else if sz % 4 ≠ 0 then
      (.error ("Size (" ++ toString sz ++ ") must be a multiple of 4"), b)
    else if bufferSize < u64Mod (off + sz) then
      (.error ("Range (offset " ++ toString off ++ " + size " ++ toString sz
        ++ ") exceeds buffer size (" ++ toString bufferSize ++ ")"), b)
    else
      match findFirstOverlap off (u64Mod (off + sz)) b.activeRanges with
      | some r =>
          (.error ("getMappedRange() range [" ++ toString off ++ ", "
            ++ toString (u64Mod (off + sz)) ++ ") overlaps with existing range ["
            ++ toString r.1 ++ ", " ++ toString (u64Mod (r.1 + r.2)) ++ ")"), b)
      | none =>
          let data := (b.contents.drop off).take sz
          (.ok data,
            { b with activeRanges := b.activeRanges ++ [(off, sz)]
                     mappedData := some data })

/-- Overwrite `data` into `contents` starting at `offset`
(`copy_from_slice` into the mapped memory). -/
def writeBytes (contents : List Nat) (offset : Nat) (data : List Nat) : List Nat :=
  contents.take offset ++ data ++ contents.drop (offset + data.length)

/-- `GpuBuffer::unmap` (`buffer.rs:240-310`): flush pending writes and the
modified mapped copy — through the queue when the buffer has `COPY_DST`
(unmap first, then `queue.write_buffer` calls, submit, poll), else by
guarded writes into the mapped memory before the native unmap — then clear
pending writes, clear all active ranges and set the state to
`"unmapped"`. -/
def GpuBuffer.unmap (b : GpuBuffer) (modifiedBuffer : Option (List Nat)) :
    Except String Unit × GpuBuffer :=
  let pending := b.pendingWrites
  let hasCopyDst := b.usage &&& copyDstBit ≠ 0
  let b' :=
    if pending ≠ [] ∨ modifiedBuffer.isSome then
      if hasCopyDst then
        { b with nativeLog := b.nativeLog ++ [BufNative.unmapNative]
            ++ pending.map (fun pw => BufNative.queueWriteBuffer pw.1 pw.2)
            ++ (match modifiedBuffer with
                | some d => [BufNative.queueWriteBuffer 0 d]
                | none => [])
            ++ [BufNative.queueSubmit, BufNative.devicePoll] }
      else
        let c1 := pending.foldl
          (fun c pw => if pw.1 + pw.2.length ≤ c.length then writeBytes c pw.1 pw.2 else c)
          b.contents
        let c2 := match modifiedBuffer with
          | some d => if d.length ≤ c1.length then writeBytes c1 0 d else c1
          | none => c1
        { b with contents := c2, nativeLog := b.nativeLog ++ [BufNative.unmapNative] }
    else
      { b with nativeLog := b.nativeLog ++ [BufNative.unmapNative] }
  (.ok (),
    { b' with pendingWrites := [], activeRanges := [], mapState := "unmapped" })

/-- The success condition of claim C10 read literally: map state
`"mapped"`, offset a multiple of 8, size (defaulting to the remaining
bytes) a multiple of 4, `offset + size` within the buffer, and no overlap
with an active range (the code's interval test). -/
def specGetMappedRangeOk (b : GpuBuffer) (offset size : Option Nat) : Prop :=
  b.mapState = "mapped" ∧ offset.getD 0 % 8 = 0 ∧
  (size.getD (b.size - offset.getD 0)) % 4 = 0 ∧
  offset.getD 0 + size.getD (b.size - offset.getD 0) ≤ b.size ∧
  ∀ r ∈ b.activeRanges,
    ¬ (offset.getD 0 < r.1 + r.2 ∧
       r.1 < offset.getD 0 + size.getD (b.size - offset.getD 0))

/-- The effective byte count of a `get_mapped_range` request in the
non-wrapping regime: the explicit size, or the remaining bytes. -/
def effectiveSize (b : GpuBuffer) (offset size : Option Nat) : Nat :=
  match size with
  | some s => s
  | none => b.size - offset.getD 0

/-! ## Shared lemmas on the pass-handle lifecycle -/

theorem rp_end_of_ended (f : Nat) :
    GpuRenderPassEncoder.endPass ⟨none, f⟩ = ⟨none, f⟩ := rfl

theorem rp_end_end (e : GpuRenderPassEncoder) : e.endPass.endPass = e.endPass := by
  obtain ⟨pass, f⟩ := e
  cases pass <;> rfl

theorem rp_drop_eq_end (e : GpuRenderPassEncoder) : e.dropHandle = e.endPass := by
  obtain ⟨pass, f⟩ := e
  cases pass <;> rfl

theorem rp_end_iter (n : Nat) (e : GpuRenderPassEncoder) (h : 1 ≤ n) :
    GpuRenderPassEncoder.endPass^[n] e = e.endPass := by
  induction n with
  | zero => omega
  | succ m ih =>
      rw [Function.iterate_succ_apply']
      rcases Nat.eq_zero_or_pos m with hm | hm
      · subst hm; rfl
      · rw [ih hm, rp_end_end]

theorem cp_end_end (e : GpuComputePassEncoder) : e.endPass.endPass = e.endPass := by
  obtain ⟨pass, f⟩ := e
  cases pass <;> rfl

theorem cp_drop_eq_end (e : GpuComputePassEncoder) : e.dropHandle = e.endPass := by
  obtain ⟨pass, f⟩ := e
  cases pass <;> rfl

theorem cp_end_iter (n : Nat) (e : GpuComputePassEncoder) (h : 1 ≤ n) :
    GpuComputePassEncoder.endPass^[n] e = e.endPass := by
  induction n with
  | zero => omega
  | succ m ih =>
      rw [Function.iterate_succ_apply']
      rcases Nat.eq_zero_or_pos m with hm | hm
      · subst hm; rfl
      · rw [ih hm, cp_end_end]

theorem rp_end_open (s : WgpuRenderPass) (f : Nat) :
    GpuRenderPassEncoder.endPass ⟨some s, f⟩ = ⟨none, f + 1⟩ := rfl

theorem cp_end_open (s : WgpuComputePass) (f : Nat) :
    GpuComputePassEncoder.endPass ⟨some s, f⟩ = ⟨none, f + 1⟩ := rfl

theorem cp_end_of_ended (f : Nat) :
    GpuComputePassEncoder.endPass ⟨none, f⟩ = ⟨none, f⟩ := rfl

/-! ## Claim theorems -/

/-- C1: every recording operation invoked on a render or compute pass
handle whose session has ended (explicitly or via the drop path — either
way `pass = none`) returns the reported "already ended" error and leaves
the handle unchanged, still in the ENDED state.  The step functions are
total: no input crashes. -/
theorem endedPassOpsReportErrorAndPreserveState :
    (∀ (e : GpuRenderPassEncoder) (op : RenderPassOp), e.pass = none →
      e.step op = (.error renderPassEnded, e)) ∧
    (∀ (e : GpuComputePassEncoder) (op : ComputePassOp), e.pass = none →
      e.step op = (.error computePassEnded, e)) := by
  constructor
  · intro e op h
    obtain ⟨pass, f⟩ := e
    cases h
    rfl
  · intro e op h
    obtain ⟨pass, f⟩ := e
    cases h
    rfl

/-- Witness for C1 at a concrete ended handle and operation. -/
theorem endedPassOpsReportErrorAndPreserveState_witness :
    GpuRenderPassEncoder.step ⟨none, 1⟩ (.setPipeline 7) =
      (.error renderPassEnded, ⟨none, 1⟩) ∧
    GpuComputePassEncoder.step ⟨none, 1⟩ (.dispatchWorkgroups 4 none none) =
      (.error computePassEnded, ⟨none, 1⟩) :=
  ⟨endedPassOpsReportErrorAndPreserveState.1 ⟨none, 1⟩ (.setPipeline 7) rfl,
   endedPassOpsReportErrorAndPreserveState.2 ⟨none, 1⟩ (.dispatchWorkgroups 4 none none) rfl⟩

/-- C2: on an open handle, the first `end` finalizes the native session
exactly once and moves the handle to ENDED; any sequence of `n ≥ 1` `end`
calls leaves exactly the state after the first one — later calls change
nothing and never finalize again. -/
theorem endIsIdempotentFinalizesOnce :
    (∀ (e : GpuRenderPassEncoder), e.pass.isSome = true → ∀ n, 1 ≤ n →
      GpuRenderPassEncoder.endPass^[n] e = e.endPass ∧
      (GpuRenderPassEncoder.endPass^[n] e).finalized = e.finalized + 1 ∧
      (GpuRenderPassEncoder.endPass^[n] e).pass = none) ∧
    (∀ (e : GpuComputePassEncoder), e.pass.isSome = true → ∀ n, 1 ≤ n →
      GpuComputePassEncoder.endPass^[n] e = e.endPass ∧
      (GpuComputePassEncoder.endPass^[n] e).finalized = e.finalized + 1 ∧
      (GpuComputePassEncoder.endPass^[n] e).pass = none) := by
  constructor
  · intro e hs n hn
    obtain ⟨pass, f⟩ := e
    cases pass with
    | none => simp at hs
    | some s =>
        refine ⟨rp_end_iter n _ hn, ?_, ?_⟩ <;> rw [rp_end_iter n _ hn, rp_end_open]
  · intro e hs n hn
    obtain ⟨pass, f⟩ := e
    cases pass with
    | none => simp at hs
    | some s =>
        refine ⟨cp_end_iter n _ hn, ?_, ?_⟩ <;> rw [cp_end_iter n _ hn, cp_end_open]

/-- Witness for C2: two `end` calls on concrete open handles. -/
theorem endIsIdempotentFinalizesOnce_witness :
    GpuRenderPassEncoder.endPass^[2] ⟨some ⟨[]⟩, 0⟩ =
      GpuRenderPassEncoder.endPass ⟨some ⟨[]⟩, 0⟩ ∧
    (GpuComputePassEncoder.endPass^[2] ⟨some ⟨[]⟩, 0⟩).finalized = 0 + 1 :=
  ⟨(endIsIdempotentFinalizesOnce.1 ⟨some ⟨[]⟩, 0⟩ rfl 2 (by decide)).1,
   (endIsIdempotentFinalizesOnce.2 ⟨some ⟨[]⟩, 0⟩ rfl 2 (by decide)).2.1⟩

/-- C3: over a handle's whole lifetime — `n` explicit `end` calls followed
by the final drop of the handle — the native session is finalized exactly
once: with `n = 0` the drop path alone finalizes it, and with `n ≥ 1` the
explicit path finalized it and the later drop changes nothing (the two
paths are mutually exclusive). -/
theorem lifetimeFinalizesExactlyOnce :
    (∀ (e : GpuRenderPassEncoder), e.pass.isSome = true → ∀ n : Nat,
      (GpuRenderPassEncoder.endPass^[n] e).dropHandle.finalized = e.finalized + 1 ∧
      (GpuRenderPassEncoder.endPass^[n] e).dropHandle.pass = none ∧
      (1 ≤ n → (GpuRenderPassEncoder.endPass^[n] e).dropHandle =
        GpuRenderPassEncoder.endPass^[n] e)) ∧
    (∀ (e : GpuComputePassEncoder), e.pass.isSome = true → ∀ n : Nat,
      (GpuComputePassEncoder.endPass^[n] e).dropHandle.finalized = e.finalized + 1 ∧
      (GpuComputePassEncoder.endPass^[n] e).dropHandle.pass = none ∧
      (1 ≤ n → (GpuComputePassEncoder.endPass^[n] e).dropHandle =
        GpuComputePassEncoder.endPass^[n] e)) := by
  constructor
  · intro e hs n
    obtain ⟨pass, f⟩ := e
    cases pass with
    | none => simp at hs
    | some s =>
        rcases Nat.eq_zero_or_pos n with hn | hn
        · subst hn
          exact ⟨rfl, rfl, fun h => absurd h (by decide)⟩
        · rw [rp_end_iter n _ hn, rp_end_open, rp_drop_eq_end, rp_end_of_ended]
          exact ⟨rfl, rfl, fun _ => rfl⟩
  · intro e hs n
    obtain ⟨pass, f⟩ := e
    cases pass with
    | none => simp at hs
    | some s =>
        rcases Nat.eq_zero_or_pos n with hn | hn
        · subst hn
          exact ⟨rfl, rfl, fun h => absurd h (by decide)⟩
        · rw [cp_end_iter n _ hn, cp_end_open, cp_drop_eq_end, cp_end_of_ended]
          exact ⟨rfl, rfl, fun _ => rfl⟩

/-- Witness for C3: a dropped-without-end render handle and an
ended-then-dropped compute handle, both finalized exactly once. -/
theorem lifetimeFinalizesExactlyOnce_witness :
    (GpuRenderPassEncoder.endPass^[0] ⟨some ⟨[]⟩, 0⟩).dropHandle.finalized = 0 + 1 ∧
    (GpuComputePassEncoder.endPass^[1] ⟨some ⟨[]⟩, 0⟩).dropHandle =
      GpuComputePassEncoder.endPass^[1] ⟨some ⟨[]⟩, 0⟩ :=
  ⟨(lifetimeFinalizesExactlyOnce.1 ⟨some ⟨[]⟩, 0⟩ rfl 0).1,
   (lifetimeFinalizesExactlyOnce.2 ⟨some ⟨[]⟩, 0⟩ rfl 1).2.2 (by decide)⟩

/-- C7: on any OPEN render pass handle, `draw` with `vertex_count = 3` and
every optional argument omitted records exactly one draw command, with
vertex range `0..3` and instance range `0..1`, and succeeds. -/
theorem drawThreeRecordsSingleDraw :
    ∀ (e : GpuRenderPassEncoder) (s : WgpuRenderPass), e.pass = some s →
      e.step (.draw 3 none none none) =
        (.ok (), { e with pass := some ⟨s.cmds ++ [.draw (0, 3) (0, 1)]⟩ }) := by
  intro e s h
  obtain ⟨pass, f⟩ := e
  cases h
  rfl

/-- Witness for C7 on a concrete open handle with one prior command. -/
theorem drawThreeRecordsSingleDraw_witness :
    GpuRenderPassEncoder.step ⟨some ⟨[.setPipeline 5]⟩, 0⟩ (.draw 3 none none none) =
      (.ok (), ⟨some ⟨[.setPipeline 5, .draw (0, 3) (0, 1)]⟩, 0⟩) :=
  drawThreeRecordsSingleDraw ⟨some ⟨[.setPipeline 5]⟩, 0⟩ ⟨[.setPipeline 5]⟩ rfl

theorem create_texture_format (d : TextureDescriptor) :
    (create_texture d).format = parse_texture_format d.format := rfl

/-- C8: a texture-format string outside the known vocabulary translates to
the default `rgba8unorm` instead of an error, and `createTexture` — which
is total and cannot fail — produces a texture with that default format. -/
theorem unknownTextureFormatFallsBackToRgba8 :
    ∀ fmt : String, fmt ∉ knownTextureFormats →
      parse_texture_format fmt = .rgba8unorm ∧
      ∀ d : TextureDescriptor, d.format = fmt →
        (create_texture d).format = .rgba8unorm := by
  intro fmt h
  simp only [knownTextureFormats, List.mem_cons, List.not_mem_nil, or_false,
    not_or] at h
  obtain ⟨h1, h2, h3, h4, h5, h6⟩ := h
  have hp : parse_texture_format fmt = .rgba8unorm := by
    unfold parse_texture_format
    split <;> simp_all
  refine ⟨hp, fun d hd => ?_⟩
  rw [create_texture_format, hd, hp]

/-- Witness for C8 at the unrecognized token "r8unorm". -/
theorem unknownTextureFormatFallsBackToRgba8_witness :
    parse_texture_format "r8unorm" = .rgba8unorm ∧
    (create_texture
      { label := none, width := 4, height := 4, depth := none,
        format := "r8unorm", usage := 16, dimension := none,
        mipLevelCount := none, sampleCount := none }).format = .rgba8unorm :=
  ⟨(unknownTextureFormatFallsBackToRgba8 "r8unorm" (by decide)).1,
   (unknownTextureFormatFallsBackToRgba8 "r8unorm" (by decide)).2 _ rfl⟩

theorem renderOpCmd_setIndexBuffer_unknown (buf : Nat) (fmt : String)
    (off sz : Option Nat) (h16 : fmt ≠ "uint16") (h32 : fmt ≠ "uint32") :
    renderOpCmd (.setIndexBuffer buf fmt off sz) = none := by
  unfold renderOpCmd
  split <;> simp_all

theorem bundleIndexFormat_unknown (fmt : String)
    (h16 : fmt ≠ "uint16") (h32 : fmt ≠ "uint32") :
    bundleIndexFormat fmt = .uint16 := by
  unfold bundleIndexFormat
  split <;> simp_all

/-- C9: `setIndexBuffer` on an OPEN render pass handle rejects an
index-format token other than `"uint16"`/`"uint32"` with a reported
invalid-token error, recording nothing (the handle, including its session
command list, is unchanged); `create_render_bundle_indexed` with the same
token succeeds and silently records the index buffer with the `Uint16`
default. -/
theorem setIndexBufferStrictButBundleDefaults :
    (∀ (e : GpuRenderPassEncoder) (buf : Nat) (fmt : String) (off sz : Option Nat),
      e.pass.isSome = true → fmt ≠ "uint16" → fmt ≠ "uint32" →
      e.step (.setIndexBuffer buf fmt off sz) =
        (.error ("Invalid index format: " ++ fmt), e)) ∧
    (∀ (label : String) (p : Nat) (vbs : List Nat) (ib : Nat) (fmt : String)
        (ic : Nat) (bgs : Option (List Nat)) (cfs : List String),
      fmt ≠ "uint16" → fmt ≠ "uint32" →
      create_render_bundle_indexed label p vbs ib fmt ic bgs cfs =
        .ok { label := label
              colorFormats := cfs.map parse_texture_format
              cmds := RenderCmd.setPipeline p ::
                ((bgs.getD []).enum.map fun q => RenderCmd.setBindGroup q.1 q.2 []) ++
                (vbs.enum.map fun q => RenderCmd.setVertexBuffer q.1 q.2 .full) ++
                [RenderCmd.setIndexBuffer ib .full .uint16,
                 RenderCmd.drawIndexed (0, ic) 0 (0, 1)] }) := by
  constructor
  · intro e buf fmt off sz hs h16 h32
    obtain ⟨pass, f⟩ := e
    cases pass with
    | none => simp at hs
    | some s =>
        simp only [GpuRenderPassEncoder.step,
          renderOpCmd_setIndexBuffer_unknown buf fmt off sz h16 h32]
        rfl
  · intro label p vbs ib fmt ic bgs cfs h16 h32
    unfold create_render_bundle_indexed
    rw [bundleIndexFormat_unknown fmt h16 h32]

/-- Witness for C9 at the unrecognized token "uint8". -/
theorem setIndexBufferStrictButBundleDefaults_witness :
    GpuRenderPassEncoder.step ⟨some ⟨[]⟩, 0⟩ (.setIndexBuffer 3 "uint8" none none) =
      (.error ("Invalid index format: " ++ "uint8"), ⟨some ⟨[]⟩, 0⟩) ∧
    create_render_bundle_indexed "b" 1 [2] 3 "uint8" 6 none ["rgba8unorm"] =
      .ok { label := "b"
            colorFormats := [TextureFormat.rgba8unorm]
            cmds := [RenderCmd.setPipeline 1, RenderCmd.setVertexBuffer 0 2 .full,
                     RenderCmd.setIndexBuffer 3 .full .uint16,
                     RenderCmd.drawIndexed (0, 6) 0 (0, 1)] } :=
  ⟨setIndexBufferStrictButBundleDefaults.1 ⟨some ⟨[]⟩, 0⟩ 3 "uint8" none none rfl
      (by decide) (by decide),
   setIndexBufferStrictButBundleDefaults.2 "b" 1 [2] 3 "uint8" 6 none ["rgba8unorm"]
      (by decide) (by decide)⟩

/-- Whether an encoder-method result is a reported error. -/
def encResIsError : EncOpResult → Bool
  | .unitRes (.error _) => true
  | _ => false

/-- Counterexample to C5: calling `finish` on an already-finished encoder
does not return a reported error — it silently returns a
`GpuCommandBuffer` holding no native buffer (the claim requires every
post-finish operation, `finish` included, to report an error and never
silently succeed). -/
theorem finishOnFinishedEncoderSilent :
    encResIsError (encApply .finish ⟨none⟩).1 = false ∧
    (encApply .finish ⟨none⟩).1 = .bufRes ⟨none⟩ ∧
    (encApply .finish ⟨none⟩).2 = ⟨none⟩ :=
  ⟨rfl, rfl, rfl⟩

/-- C5 (amended): every operation on a finished encoder other than
`finish` returns the reported "Command encoder already finished" error and
leaves the encoder unchanged; `finish` itself, by contrast, silently
returns a command buffer holding no native buffer and leaves the encoder
finished. -/
theorem finishedEncoderOpsReportError :
    ∀ (c : EncoderApiCall) (e : GpuCommandEncoder), e.encoder = none →
      (encApply c e).2 = e ∧
      ((c = .finish ∧ (encApply c e).1 = .bufRes ⟨none⟩) ∨
       (c ≠ .finish ∧ (encApply c e).1 = .unitRes (.error encoderFinished))) := by
  intro c e h
  obtain ⟨enc⟩ := e
  cases h
  cases c <;> simp [encApply]

/-- Witness for C5 (amended) at a finished encoder. -/
theorem finishedEncoderOpsReportError_witness :
    (encApply (.writeTimestamp 0 0) ⟨none⟩).2 = (⟨none⟩ : GpuCommandEncoder) :=
  (finishedEncoderOpsReportError (.writeTimestamp 0 0) ⟨none⟩ rfl).1

/-! ## Session balance of encoder traces -/

theorem openRun_append (xs ys : List EncEvent) (o : Nat) :
    openRun (xs ++ ys) o = (openRun xs o).bind fun o' => openRun ys o' := by
  induction xs generalizing o with
  | nil => simp [openRun]
  | cons ev rest ih =>
      cases ev <;> simp only [List.cons_append, openRun] <;>
        first
          | (split <;> simp [ih])
          | simp [ih]

theorem openRun_append_balanced (evts t : List EncEvent)
    (h1 : openRun evts 0 = some 0) (h2 : openRun t 0 = some 0) :
    openRun (evts ++ t) 0 = some 0 := by
  rw [openRun_append, h1]
  exact h2

theorem openRun_map_computeCmd (l : List ComputeCmd) (o : Nat) :
    openRun (l.map EncEvent.computeCmd) o = some o := by
  induction l with
  | nil => rfl
  | cons c rest ih => simpa [openRun] using ih

theorem openRun_map_renderCmd (l : List RenderCmd) (o : Nat) :
    openRun (l.map EncEvent.renderCmd) o = some o := by
  induction l with
  | nil => rfl
  | cons c rest ih => simpa [openRun] using ih

theorem openRun_computeSession (inner : List ComputeCmd) :
    openRun (computeSession inner) 0 = some 0 := by
  simp [computeSession, openRun, openRun_append, openRun_map_computeCmd]

theorem openRun_renderSession (att : List ColorAttachment)
    (ds : Option DepthStencilAttachment) (inner : List RenderCmd) :
    openRun (renderSession att ds inner) 0 = some 0 := by
  simp [renderSession, openRun, openRun_append, openRun_map_renderCmd]

/-- Every encoder method's trace begins and ends with the recording buffer
having no open pass session, and never opens a second one. -/
theorem openRun_encCallTrace (c : EncoderApiCall) :
    openRun (encCallTrace c) 0 = some 0 := by
  cases c <;>
    first
      | exact openRun_computeSession _
      | exact openRun_renderSession _ _ _
      | rfl

theorem encoderInv_step (c : EncoderApiCall) (e : GpuCommandEncoder)
    (h : encoderInv e) : encoderInv (encApply c e).2 := by
  obtain ⟨enc⟩ := e
  cases enc with
  | none =>
      cases c <;> exact trivial
  | some evts =>
      have hrun : openRun evts 0 = some 0 := h
      cases c <;>
        first
          | exact trivial
          | exact openRun_append_balanced evts _ hrun (openRun_encCallTrace _)

theorem encoderInv_runEnc (calls : List EncoderApiCall) (e : GpuCommandEncoder)
    (h : encoderInv e) : encoderInv (runEnc calls e) := by
  induction calls generalizing e with
  | nil => exact h
  | cons c cs ih => exact ih _ (encoderInv_step c e h)

/-- C4: from a fresh command encoder, after any sequence of encoder
operations, the recorded event trace has at most one pass session open at
any point and every session closed — each pass-beginning operation closes
its pass before returning, so no reachable encoder state has two
concurrently open sessions on its recording buffer. -/
theorem reachableEncoderHasAtMostOneOpenSession :
    ∀ calls : List EncoderApiCall, encoderInv (runEnc calls newCommandEncoder) := by
  intro calls
  exact encoderInv_runEnc calls newCommandEncoder rfl

/-! ## Cumulative in-order recording -/

theorem bindingState_snoc (cs : List RenderCmd) (c : RenderCmd) :
    bindingState (cs ++ [c]) = bindingUpd (bindingState cs) c := by
  simp [bindingState, List.foldl_append]

theorem computeBindingState_snoc (cs : List ComputeCmd) (c : ComputeCmd) :
    computeBindingState (cs ++ [c]) = computeBindingUpd (computeBindingState cs) c := by
  simp [computeBindingState, List.foldl_append]

/-- C6: for both kinds of pass session — render and compute — (i) a
sequence of recording operations that all succeed on an OPEN handle is
forwarded to the underlying session immediately and in call order (every
compute operation succeeds on an OPEN handle, so the compute clause has no
side condition): the session's command list is extended by exactly the
translated operations, in order, never reset; (ii) under the recording
buffer's cumulative state semantics, a later `setPipeline` overrides any
earlier one; (iii) draw and dispatch commands leave the accumulated
pipeline/buffer/bind-group bindings untouched, so state persists across
draw and dispatch calls within the same session. -/
theorem openPassOpsApplyInOrderCumulatively :
    ((∀ (ops : List RenderPassOp) (cs : List RenderCmd) (f : Nat),
      (∀ op ∈ ops, (renderOpCmd op).isSome = true) →
      GpuRenderPassEncoder.run ⟨some ⟨cs⟩, f⟩ ops =
        ⟨some ⟨cs ++ ops.filterMap renderOpCmd⟩, f⟩) ∧
     (∀ (cs : List RenderCmd) (p : Nat),
      (bindingState (cs ++ [.setPipeline p])).pipeline = some p) ∧
     (∀ (cs : List RenderCmd) (v i : Nat × Nat) (bv : Int),
      bindingState (cs ++ [.draw v i]) = bindingState cs ∧
      bindingState (cs ++ [.drawIndexed v bv i]) = bindingState cs)) ∧
    ((∀ (ops : List ComputePassOp) (cs : List ComputeCmd) (f : Nat),
      GpuComputePassEncoder.run ⟨some ⟨cs⟩, f⟩ ops =
        ⟨some ⟨cs ++ ops.map computeOpCmd⟩, f⟩) ∧
     (∀ (cs : List ComputeCmd) (p : Nat),
      (computeBindingState (cs ++ [.setPipeline p])).pipeline = some p) ∧
     (∀ (cs : List ComputeCmd) (x y z b off : Nat),
      computeBindingState (cs ++ [.dispatchWorkgroups x y z]) =
        computeBindingState cs ∧
      computeBindingState (cs ++ [.dispatchWorkgroupsIndirect b off]) =
        computeBindingState cs)) := by
  refine ⟨⟨?_, ?_, ?_⟩, ⟨?_, ?_, ?_⟩⟩
  · intro ops
    induction ops with
    | nil => intro cs f _; simp [GpuRenderPassEncoder.run]
    | cons op ops ih =>
        intro cs f h
        have hop := h op (List.mem_cons_self op ops)
        rcases hcm : renderOpCmd op with _ | c
        · rw [hcm] at hop; simp at hop
        · have hrest : ∀ o ∈ ops, (renderOpCmd o).isSome = true :=
            fun o ho => h o (List.mem_cons_of_mem op ho)
          have hstep : (GpuRenderPassEncoder.step ⟨some ⟨cs⟩, f⟩ op).2 =
              ⟨some ⟨cs ++ [c]⟩, f⟩ := by
            simp [GpuRenderPassEncoder.step, hcm]
          show (GpuRenderPassEncoder.run
            (GpuRenderPassEncoder.step ⟨some ⟨cs⟩, f⟩ op).2 ops) = _
          rw [hstep, ih (cs ++ [c]) f hrest, List.filterMap_cons, hcm]
          simp
  · intro cs p
    rw [bindingState_snoc]
    rfl
  · intro cs v i bv
    constructor <;> rw [bindingState_snoc] <;> rfl
  · intro ops
    induction ops with
    | nil => intro cs f; simp [GpuComputePassEncoder.run]
    | cons op ops ih =>
        intro cs f
        show (GpuComputePassEncoder.run
          (GpuComputePassEncoder.step ⟨some ⟨cs⟩, f⟩ op).2 ops) = _
        have hstep : (GpuComputePassEncoder.step ⟨some ⟨cs⟩, f⟩ op).2 =
            ⟨some ⟨cs ++ [computeOpCmd op]⟩, f⟩ := rfl
        rw [hstep, ih (cs ++ [computeOpCmd op]) f]
        simp
  · intro cs p
    rw [computeBindingState_snoc]
    rfl
  · intro cs x y z b off
    constructor <;> rw [computeBindingState_snoc] <;> rfl

/-- Witness for C6: concrete successful sequences on fresh open handles of
both kinds — render: pipeline, vertex buffer, draw, second pipeline;
compute: pipeline, bind group, dispatch, second pipeline — recorded in
order, with the later `setPipeline` overriding the earlier one on both
session kinds. -/
theorem openPassOpsApplyInOrderCumulatively_witness :
    GpuRenderPassEncoder.run ⟨some ⟨[]⟩, 0⟩
      [.setPipeline 1, .setVertexBuffer 0 2 none none,
       .draw 3 none none none, .setPipeline 4] =
      ⟨some ⟨[] ++ [RenderCmd.setPipeline 1, RenderCmd.setVertexBuffer 0 2 .full,
       RenderCmd.draw (0, 3) (0, 1), RenderCmd.setPipeline 4]⟩, 0⟩ ∧
    GpuComputePassEncoder.run ⟨some ⟨[]⟩, 0⟩
      [.setPipeline 1, .setBindGroup 0 2 none,
       .dispatchWorkgroups 4 none none, .setPipeline 3] =
      ⟨some ⟨[] ++ [ComputeCmd.setPipeline 1, ComputeCmd.setBindGroup 0 2 [],
       ComputeCmd.dispatchWorkgroups 4 1 1, ComputeCmd.setPipeline 3]⟩, 0⟩ ∧
    (bindingState ([RenderCmd.setPipeline 1] ++ [.setPipeline 4])).pipeline = some 4 ∧
    (computeBindingState
      ([ComputeCmd.setPipeline 1] ++ [.setPipeline 3])).pipeline = some 3 :=
  ⟨openPassOpsApplyInOrderCumulatively.1.1
      [.setPipeline 1, .setVertexBuffer 0 2 none none,
       .draw 3 none none none, .setPipeline 4] [] 0 (by decide),
   openPassOpsApplyInOrderCumulatively.2.1
      [.setPipeline 1, .setBindGroup 0 2 none,
       .dispatchWorkgroups 4 none none, .setPipeline 3] [] 0,
   openPassOpsApplyInOrderCumulatively.1.2.1 [RenderCmd.setPipeline 1] 4,
   openPassOpsApplyInOrderCumulatively.2.2.1 [ComputeCmd.setPipeline 1] 3⟩

/-! ## `getMappedRange` / `unmap` -/

theorem u64Sub_of_le (a b : Nat) (h1 : b ≤ a) (h2 : a < 2 ^ 64) :
    u64Sub a b = a - b := by
  unfold u64Sub u64Mod
  have hb : b % 2 ^ 64 = b := Nat.mod_eq_of_lt (lt_of_le_of_lt h1 h2)
  rw [hb]
  have hrw : a + 2 ^ 64 - b = (a - b) + 2 ^ 64 := by omega
  rw [hrw, Nat.add_mod_right]
  exact Nat.mod_eq_of_lt (by omega)

theorem findFirstOverlap_eq_none (s e : Nat) (l : List (Nat × Nat)) :
    findFirstOverlap s e l = none ↔
      ∀ r ∈ l, ¬ (s < u64Mod (r.1 + r.2) ∧ r.1 < e) := by
  induction l with
  | nil => simp [findFirstOverlap]
  | cons r rest ih =>
      by_cases hc : s < u64Mod (r.1 + r.2) ∧ r.1 < e
      · simp [findFirstOverlap, hc]
      · simp only [findFirstOverlap, if_neg hc, ih, List.mem_cons]
        constructor
        · intro h r' hr'
          rcases hr' with hr' | hr'
          · subst hr'; exact hc
          · exact h r' hr'
        · intro h r' hr'
          exact h r' (Or.inr hr')

theorem get_mapped_range_ok_iff (b : GpuBuffer) (offset size : Option Nat) :
    ((b.get_mapped_range offset size).1.isOk = true) ↔
      (b.mapState = "mapped" ∧ offset.getD 0 % 8 = 0 ∧
       codeSize b offset size % 4 = 0 ∧
       ¬ b.size < u64Mod (offset.getD 0 + codeSize b offset size) ∧
       findFirstOverlap (offset.getD 0)
         (u64Mod (offset.getD 0 + codeSize b offset size)) b.activeRanges = none) := by
  unfold GpuBuffer.get_mapped_range
  by_cases hm : b.mapState = "mapped"
  · by_cases h8 : offset.getD 0 % 8 = 0
    · by_cases h4 : codeSize b offset size % 4 = 0
      · by_cases hbnd : b.size < u64Mod (offset.getD 0 + codeSize b offset size)
        · simp [hm, h8, h4, hbnd, Except.isOk, Except.toBool]
        · cases hov : findFirstOverlap (offset.getD 0)
              (u64Mod (offset.getD 0 + codeSize b offset size)) b.activeRanges with
          | some r => simp [hm, h8, h4, hbnd, hov, Except.isOk, Except.toBool]
          | none => simp [hm, h8, h4, hbnd, hov, Except.isOk, Except.toBool]
      · simp [hm, h8, h4, Except.isOk, Except.toBool]
    · simp [hm, h8, Except.isOk, Except.toBool]
  · simp [hm, Except.isOk, Except.toBool]

theorem get_mapped_range_ranges (b : GpuBuffer) (offset size : Option Nat)
    (h : (b.get_mapped_range offset size).1.isOk = true) :
    (b.get_mapped_range offset size).2.activeRanges =
      b.activeRanges ++ [(offset.getD 0, codeSize b offset size)] := by
  unfold GpuBuffer.get_mapped_range at h ⊢
  by_cases hm : b.mapState = "mapped"
  · by_cases h8 : offset.getD 0 % 8 = 0
    · by_cases h4 : codeSize b offset size % 4 = 0
      · by_cases hbnd : b.size < u64Mod (offset.getD 0 + codeSize b offset size)
        · simp [hm, h8, h4, hbnd, Except.isOk, Except.toBool] at h
        · cases hov : findFirstOverlap (offset.getD 0)
              (u64Mod (offset.getD 0 + codeSize b offset size)) b.activeRanges with
          | some r => simp [hm, h8, h4, hbnd, hov, Except.isOk, Except.toBool] at h
          | none => simp [hm, h8, h4, hbnd, hov]
      · simp [hm, h8, h4, Except.isOk, Except.toBool] at h
    · simp [hm, h8, Except.isOk, Except.toBool] at h
  · simp [hm, Except.isOk, Except.toBool] at h

/-- A buffer of size 4, mapped, with no active ranges and no pending
writes: the counterexample state for C10. -/
def cexBuffer : GpuBuffer :=
  { size := 4, usage := 0, contents := [], pendingWrites := [],
    mappedData := none, mapState := "mapped", activeRanges := [], nativeLog := [] }

/-- Counterexample to C10: on a mapped 4-byte buffer,
`getMappedRange(offset := 8)` with the size omitted succeeds — the
wrapping `u64` computation of the default size (`4 - 8` wraps to
`2^64 - 4`) lets every check pass — although the claim's conditions
(offset + remaining size within the buffer) reject it. -/
theorem getMappedRangeDefaultSizeWrapSucceeds :
    ((cexBuffer.get_mapped_range (some 8) none).1.isOk = true) ∧
    ¬ specGetMappedRangeOk cexBuffer (some 8) none := by
  constructor
  · rfl
  · unfold specGetMappedRangeOk
    decide

/-- C10 (amended): away from the wrapping corner — the size given
explicitly, or the offset within the buffer — `getMappedRange` succeeds
exactly under the claim's conditions (map state `"mapped"`, offset a
multiple of 8, effective size a multiple of 4, range within the buffer,
no overlap with an active range), and on success appends the range to the
active set; `unmap` always returns `Ok`, clears every active range and
returns the map state to `"unmapped"`.  The side conditions record the
argument ranges of the napi signature (`u32` offset/size arguments,
`u64` buffer size, active ranges recorded without wrap). -/
theorem getMappedRangeSuccessIffValid :
    (∀ (b : GpuBuffer) (offset size : Option Nat),
      b.size < 2 ^ 64 →
      (∀ o ∈ offset, o < 2 ^ 32) →
      (∀ s ∈ size, s < 2 ^ 32) →
      (size.isSome = true ∨ offset.getD 0 ≤ b.size) →
      (∀ r ∈ b.activeRanges, r.1 + r.2 < 2 ^ 64) →
      (((b.get_mapped_range offset size).1.isOk = true) ↔
        (b.mapState = "mapped" ∧ offset.getD 0 % 8 = 0 ∧
         effectiveSize b offset size % 4 = 0 ∧
         offset.getD 0 + effectiveSize b offset size ≤ b.size ∧
         ∀ r ∈ b.activeRanges,
           ¬ (offset.getD 0 < r.1 + r.2 ∧
              r.1 < offset.getD 0 + effectiveSize b offset size))) ∧
      ((b.get_mapped_range offset size).1.isOk = true →
        (b.get_mapped_range offset size).2.activeRanges =
          b.activeRanges ++ [(offset.getD 0, effectiveSize b offset size)])) ∧
    (∀ (b : GpuBuffer) (mb : Option (List Nat)),
      (b.unmap mb).1 = .ok () ∧
      (b.unmap mb).2.activeRanges = [] ∧
      (b.unmap mb).2.mapState = "unmapped") := by
  constructor
  · intro b offset size hsz hoff32 hsz32 hdom hranges
    have hofflt : offset.getD 0 < 2 ^ 32 := by
      cases offset with
      | none => decide
      | some o => exact hoff32 o rfl
    have hsz_eq : codeSize b offset size = effectiveSize b offset size := by
      cases size with
      | some s => rfl
      | none =>
          rcases hdom with h | h
          · simp at h
          · exact u64Sub_of_le b.size (offset.getD 0) h hsz
    have hlt : offset.getD 0 + effectiveSize b offset size < 2 ^ 64 := by
      cases size with
      | some s =>
          have hs : s < 2 ^ 32 := hsz32 s rfl
          have hes : effectiveSize b offset (some s) = s := rfl
          rw [hes]
          omega
      | none =>
          rcases hdom with h | h
          · simp at h
          · have hes : effectiveSize b offset none = b.size - offset.getD 0 := rfl
            rw [hes]
            omega
    have hmod : u64Mod (offset.getD 0 + effectiveSize b offset size) =
        offset.getD 0 + effectiveSize b offset size := Nat.mod_eq_of_lt hlt
    have hrangemod : ∀ r ∈ b.activeRanges, u64Mod (r.1 + r.2) = r.1 + r.2 :=
      fun r hr => Nat.mod_eq_of_lt (hranges r hr)
    have hiff := get_mapped_range_ok_iff b offset size
    rw [hsz_eq, hmod] at hiff
    constructor
    · rw [hiff]
      constructor
      · rintro ⟨hm, h8, h4, hbnd, hov⟩
        refine ⟨hm, h8, h4, by omega, ?_⟩
        intro r hr
        have hno := (findFirstOverlap_eq_none _ _ _).mp hov r hr
        rw [hrangemod r hr] at hno
        exact hno
      · rintro ⟨hm, h8, h4, hbnd, hno⟩
        refine ⟨hm, h8, h4, by omega, ?_⟩
        rw [findFirstOverlap_eq_none]
        intro r hr
        rw [hrangemod r hr]
        exact hno r hr
    · intro hok
      have hr := get_mapped_range_ranges b offset size hok
      rw [hsz_eq] at hr
      exact hr
  · intro b mb
    exact ⟨rfl, rfl, rfl⟩

/-- Witness for C10 (amended): a successful 4-byte range at offset 8 on a
mapped 16-byte buffer, and an `unmap` that clears the state. -/
theorem getMappedRangeSuccessIffValid_witness :
    ((GpuBuffer.get_mapped_range
        { size := 16, usage := 0, contents := [], pendingWrites := [],
          mappedData := none, mapState := "mapped", activeRanges := [],
          nativeLog := [] } (some 8) (some 4)).1.isOk = true) ∧
    (GpuBuffer.unmap cexBuffer none).2.mapState = "unmapped" :=
  ⟨(getMappedRangeSuccessIffValid.1
      { size := 16, usage := 0, contents := [], pendingWrites := [],
        mappedData := none, mapState := "mapped", activeRanges := [],
        nativeLog := [] } (some 8) (some 4)
      (by decide) (by decide) (by decide) (Or.inl rfl) (by decide)).1.mpr
      (by decide),
   (getMappedRangeSuccessIffValid.2 cexBuffer none).2.2⟩

end WebGpuNapi
